import Mathlib

/-!
Shallow embedding of the booking / availability / payment core of the
`be-mpaata` hotel backend (Express + Firestore), together with theorems
settling the frozen claims about it.

Conventions of the embedding:
* Firestore documents become Lean structures; inert fields that no modelled
  operation reads or branches on (guest contact strings, amenity lists,
  audit `createdBy`, …) are omitted.
* Instants (JS `Date` / Firestore `Timestamp`) are integers (milliseconds);
  `admin.firestore.FieldValue.serverTimestamp()` resolves to the `now`
  argument threaded into each handler, matching Firestore's commit-time
  resolution.
* Optional / possibly-absent JSON fields are `Option`; JS truthiness on
  strings (`x || d`, `!x`) is modelled by `jsOr` / `jsStrTruthy`, which
  treat the empty string like `null`/`undefined`.
* Handlers are pure state transformers `DB → … → Response × DB`; the ones
  whose claims concern write atomicity additionally return a write trace
  `List (List DocWrite)`, each inner list being one atomic commit unit
  (a Firestore `batch.commit()` is one unit; a bare `update()` is a
  singleton unit).
-/

/-- A stored booking document (collection `bookings`).  Guest contact
fields, `paymentMethod`, `paymentPhone`, `receivedBy`, `createdBy` are
omitted: no modelled operation branches on them after creation. -/
structure Booking where
  id : String
  roomId : String
  userId : String
  checkIn : Int
  checkOut : Int
  totalPrice : Int
  status : String
  paymentStatus : String
  createdAt : Int
  updatedAt : Option Int
deriving DecidableEq, Repr

/-- A stored payment document (collection `payments`). -/
structure Payment where
  id : String
  bookingId : String
  userId : String
  amount : Int
  status : String
  customer_reference : String
  externalReference : Option String
  failureReason : Option String
  paidAt : Option Int
  createdAt : Int
  updatedAt : Option Int
deriving DecidableEq, Repr

/-- A stored room document (collection `rooms`).  `price` is what the
rooms router stores and the booking-creation price computation reads;
`pricePerNight`, `capacity` and `isActive` are the fields the
availability endpoint reads. -/
structure Room where
  id : String
  roomNumber : String
  price : Int
  pricePerNight : Int
  capacity : Int
  isActive : Bool
  status : String
deriving DecidableEq, Repr

/-- The document store state visible to the modelled routes. -/
structure DB where
  rooms : List Room
  bookings : List Booking
  payments : List Payment
deriving DecidableEq, Repr

/-- One document write; a `List DocWrite` is one atomic commit unit. -/
inductive DocWrite where
  | payment (id : String)
  | booking (id : String)
  | room (id : String)
deriving DecidableEq, Repr

/-- JS `x || d` on an optional string field: `null`/`undefined`/`""` fall
back to the default. -/
def jsOr (x : Option String) (d : String) : String :=
  match x with
  | none => d
  | some s => if s = "" then d else s

/-- JS truthiness of an optional string (`!x` is the negation). -/
def jsStrTruthy (x : Option String) : Bool :=
  match x with
  | none => false
  | some s => decide (s ≠ "")

/-- One day in milliseconds (`1000 * 60 * 60 * 24`). -/
def msPerDay : Int := 86400000

/-- `Math.ceil (a / b)` for integer `a` and positive integer `b`. -/
def ceilDiv (a b : Int) : Int := -((-a) / b)

/-- `checkAvailability` from `routes/bookings.js`: scans the bookings for
`roomId0` whose status is `confirmed` or `pending`, skips
`excludeBookingId`, and reports unavailable (`false`) on the half-open
overlap test `newStart < existingEnd && newEnd > existingStart`. -/
def checkAvailability (bookings : List Booking) (roomId0 : String)
    (newStart newEnd : Int) (excludeBookingId : Option String) : Bool :=
  bookings.all fun b =>
    if b.roomId = roomId0 ∧ (b.status = "confirmed" ∨ b.status = "pending") then
      if excludeBookingId = some b.id then true
      else decide ¬(newStart < b.checkOut ∧ newEnd > b.checkIn)
    else true

/-- `calculateTotalPrice` from `routes/bookings.js`: nightly price times
the ceiling of the night count, minimum one night; a falsy (zero) nightly
price yields 0.  (The `!checkIn || !checkOut` guard never fires on the
Date objects the caller passes, so it is not modelled.) -/
def calculateTotalPrice (pricePerNight : Int) (checkIn checkOut : Int) : Int :=
  if pricePerNight = 0 then 0
  else
    let diffNights := ceilDiv (checkOut - checkIn) msPerDay
    pricePerNight * (if diffNights > 0 then diffNights else 1)

/-- Character filter of `formatPhoneNumber`: the separator-stripping
regex removes spaces, dashes and parentheses.  (The whitespace class also
covers tabs and newlines; phone inputs in scope are single-line.) -/
def cleanPhone (s : String) : List Char :=
  s.data.filter fun c => !(c == ' ' || c == '-' || c == '(' || c == ')')

/-- `formatPhoneNumber` from `routes/bookings.js` (also `formatMsisdn` in
the payments router): falsy input (missing or empty) yields `null`;
otherwise strip separators and canonicalise to a `+256…` form — a leading
`0` is replaced by `+256`, a number with no leading `+` is prefixed with
`+256`, and anything else is returned as cleaned. -/
def formatPhoneNumber (phone : Option String) : Option String :=
  match phone with
  | none => none
  | some s =>
    if s = "" then none
    else
      match cleanPhone s with
      | [] => some (String.mk "+256".data)
      | c :: rest =>
        if c == '0' then some (String.mk ("+256".data ++ rest))
        else if c == '+' then some (String.mk (c :: rest))
        else some (String.mk ("+256".data ++ c :: rest))

/-- The three-clause date-overlap test of `routes/availability.js`
(lines 75–79). -/
def availOverlap (checkInDate checkOutDate bIn bOut : Int) : Bool :=
  (decide (checkInDate ≥ bIn) && decide (checkInDate < bOut)) ||
  (decide (checkOutDate > bIn) && decide (checkOutDate ≤ bOut)) ||
  (decide (checkInDate ≤ bIn) && decide (checkOutDate ≥ bOut))

/-- The `(!guests || roomData.capacity >= guests)` capacity filter of the
availability endpoint: an absent or zero (falsy) guest count passes. -/
def guestsOk (guests : Option Int) (capacity : Int) : Bool :=
  match guests with
  | none => true
  | some g => decide (g = 0) || decide (capacity ≥ g)

/-- Response of `POST /api/v1/availability`: a validation error code, or
the list of available rooms as `(room id, totalPrice, nights)` triples. -/
inductive AvailResponse where
  | validationError (code : String)
  | ok (roomsFound : List (String × Int × Int))
deriving DecidableEq, Repr

/-- `POST /api/v1/availability` from `routes/availability.js`.  `today` is
the current date truncated to midnight (`setHours(0,0,0,0)`).  Missing
dates give `VALIDATION_ERROR`; a past check-in gives `INVALID_CHECKIN`;
`checkOut ≤ checkIn` gives `INVALID_CHECKOUT`.  Only *active* rooms are
considered and only bookings with status exactly `"confirmed"` block a
room; the capacity filter is skipped when `guests` is absent or `0`
(falsy).  (The source's early return on an empty room snapshot also
produces an empty room list, so it needs no separate branch.) -/
def availabilityCheckRoute (db : DB) (today : Int)
    (checkIn checkOut : Option Int) (guests : Option Int) : AvailResponse :=
  match checkIn, checkOut with
  | some checkInDate, some checkOutDate =>
    if checkInDate < today then .validationError "INVALID_CHECKIN"
    else if checkOutDate ≤ checkInDate then .validationError "INVALID_CHECKOUT"
    else
      let activeRooms := db.rooms.filter (·.isActive)
      let roomIds := activeRooms.map (·.id)
      let candidateBookings := db.bookings.filter fun b =>
        decide (b.status = "confirmed" ∧ b.roomId ∈ roomIds)
      let bookedRoomIds := (candidateBookings.filter fun b =>
        availOverlap checkInDate checkOutDate b.checkIn b.checkOut).map (·.roomId)
      let nights := ceilDiv (checkOutDate - checkInDate) msPerDay
      let availableRooms := activeRooms.filter fun r =>
        decide (r.id ∉ bookedRoomIds) && guestsOk guests r.capacity
      .ok (availableRooms.map fun r => (r.id, r.pricePerNight * nights, nights))
  | _, _ => .validationError "VALIDATION_ERROR"

/-- Request body of `POST /bookings`.  `checkIn`/`checkOut` are the parsed
`new Date(...)` values, `none` standing for an invalid (`NaN`) date. -/
structure CreateBookingRequest where
  roomId : String
  checkIn : Option Int
  checkOut : Option Int
  guestPhone : Option String
  guests : Option Int
  status : Option String
  paymentMethod : Option String
  paymentStatus : Option String
  receivedBy : Option String
  paymentPhone : Option String
deriving Repr

/-- Outcome of the synchronous outbound gateway call (the `axios.post` to
the payment provider): the promise resolves, or rejects / is unreachable. -/
inductive GatewayOutcome where
  | accepted
  | rejected
deriving DecidableEq, Repr

/-- HTTP-level result of `POST /bookings`. -/
inductive CreateBookingResponse where
  | badRequest (msg : String)
  | notFound (msg : String)
  | conflict (msg : String)
  | created (id : String) (message : String)
deriving DecidableEq, Repr

/-- `POST /bookings` from `routes/bookings.js` (create & charge).
`resolvedUserId` stands for the result of `findOrCreateUser` (external
identity resolution, not modelled further); `newBookingId`,
`newPaymentId` are the ids Firestore assigns on `add`; `reference` is the
`generateReference()` value; `gateway` is the outbound call's outcome.
On gateway rejection only the response message changes — no stored record
is touched — and the request still returns 201. -/
def createBooking (db : DB) (req : CreateBookingRequest)
    (resolvedUserId newBookingId newPaymentId reference : String)
    (gateway : GatewayOutcome) (now : Int) : CreateBookingResponse × DB :=
  match req.checkIn, req.checkOut with
  | some startT, some endT =>
    if startT ≥ endT then (.badRequest "Check-out must be after check-in", db)
    else if req.paymentMethod = some "Cash" ∧ ¬ jsStrTruthy req.receivedBy then
      (.badRequest "Cash payment requires receivedBy staff.", db)
    else
      match db.rooms.find? (fun r => r.id == req.roomId) with
      | none => (.notFound "Room not found", db)
      | some room =>
        if checkAvailability db.bookings req.roomId startT endT none = false then
          (.conflict "Room is unavailable", db)
        else
          let totalPrice := calculateTotalPrice room.price startT endT
          let formattedPaymentPhone :=
            if req.paymentMethod = some "Mobile Money" then
              formatPhoneNumber req.paymentPhone
            else none
          let booking : Booking :=
            { id := newBookingId, roomId := req.roomId, userId := resolvedUserId,
              checkIn := startT, checkOut := endT, totalPrice := totalPrice,
              status := jsOr req.status "pending",
              paymentStatus := jsOr req.paymentStatus "unpaid",
              createdAt := now, updatedAt := none }
          let payment : Payment :=
            { id := newPaymentId, bookingId := newBookingId,
              userId := resolvedUserId, amount := totalPrice,
              status := jsOr req.paymentStatus "pending",
              customer_reference := reference, externalReference := none,
              failureReason := none, paidAt := none,
              createdAt := now, updatedAt := none }
          let db1 : DB :=
            { db with bookings := db.bookings ++ [booking],
                      payments := db.payments ++ [payment] }
          let message :=
            if req.paymentMethod = some "Mobile Money" ∧ formattedPaymentPhone ≠ none then
              match gateway with
              | .accepted => "Booking created. Payment prompt sent to phone."
              | .rejected => "Booking created, but payment prompt failed. Try manually."
            else "Booking created successfully."
          (.created newBookingId message, db1)
  | _, _ => (.badRequest "Invalid dates", db)

/-- Firestore `doc.ref.update` on a payment: rewrite the document with
the matching id in place. -/
def updatePaymentDoc (payments : List Payment) (pid : String)
    (f : Payment → Payment) : List Payment :=
  payments.map fun p => if p.id = pid then f p else p

/-- Firestore `update` on a booking document, by id, in place. -/
def updateBookingDoc (bookings : List Booking) (bid : String)
    (f : Booking → Booking) : List Booking :=
  bookings.map fun b => if b.id = bid then f b else b

/-- Whether a booking document with this id exists (a Firestore `update`
on a missing document throws, surfacing as a 500). -/
def bookingExists (db : DB) (bid : String) : Bool :=
  db.bookings.any fun b => b.id == bid

/-- JS `s.toLowerCase()`. -/
def jsToLower (s : String) : String := String.mk (s.data.map Char.toLower)

/-- The webhook's `status && status.toLowerCase() === 'success'` test
(an absent status is falsy and lands in the failure branch). -/
def webhookStatusIsSuccess (status : Option String) : Bool :=
  match status with
  | none => false
  | some s => jsToLower s == "success"

/-- Inbound body of `POST /webhook`: the gateway's asynchronous
confirmation. -/
structure WebhookPayload where
  status : Option String
  customer_reference : Option String
  provider_transaction_id : Option String
  message : Option String
deriving DecidableEq, Repr

/-- HTTP-level result of `POST /webhook`: 400 `Missing Ref`, 200 `OK`,
or 500 `Error`. -/
inductive WebhookResponse where
  | badRequest (body : String)
  | ok
  | serverError
deriving DecidableEq, Repr

/-- `POST /webhook` from the payments router.  A falsy
`customer_reference` is rejected with 400 before any lookup; an unmatched
reference acknowledges with 200 and writes nothing; on success the
payment update and the booking confirmation are committed as ONE batch
(one atomic trace unit); on any other status only the payment is updated.
A success whose payment references a missing booking makes the batch
commit throw (500, nothing written). -/
def paymentsWebhook (db : DB) (p : WebhookPayload) (now : Int) :
    WebhookResponse × DB × List (List DocWrite) :=
  match p.customer_reference with
  | none => (.badRequest "Missing Ref", db, [])
  | some ref =>
    if ref = "" then (.badRequest "Missing Ref", db, [])
    else
      match db.payments.find? (fun pay => pay.customer_reference == ref) with
      | none => (.ok, db, [])
      | some pay =>
        if webhookStatusIsSuccess p.status then
          if bookingExists db pay.bookingId then
            let db1 : DB := { db with
              payments := updatePaymentDoc db.payments pay.id fun q =>
                { q with status := "success",
                         externalReference := p.provider_transaction_id,
                         paidAt := some now },
              bookings := updateBookingDoc db.bookings pay.bookingId fun b =>
                { b with paymentStatus := "paid", status := "confirmed",
                         updatedAt := some now } }
            (.ok, db1, [[.payment pay.id, .booking pay.bookingId]])
          else (.serverError, db, [])
        else
          let db1 : DB := { db with
            payments := updatePaymentDoc db.payments pay.id fun q =>
              { q with status := "failed", failureReason := p.message } }
          (.ok, db1, [[.payment pay.id]])

/-- HTTP-level result of `PUT /api/v1/payments/:id`. -/
inductive UpdatePaymentResponse where
  | badRequest (msg : String)
  | notFound (msg : String)
  | ok (msg : String)
  | serverError
deriving DecidableEq, Repr

/-- `PUT /api/v1/payments/:id` from the payments router.  The payment
`update()` and the booking-sync `update()` are two SEPARATE writes (two
trace units), not a batch.  On `success`/`paid` the booking is set to
`paid`/`confirmed`; on `failed` only its `paymentStatus` becomes
`failed`; any other status issues the booking update with an empty field
map (still modelled as a booking write for the existence check — real
Firestore rejects an empty update, which no claim exercises). -/
def updatePaymentStatusRoute (db : DB) (pid : String) (status : Option String)
    (now : Int) : UpdatePaymentResponse × DB × List (List DocWrite) :=
  if ¬ jsStrTruthy status then (.badRequest "Status is required", db, [])
  else
    let st := jsOr status ""
    match db.payments.find? (fun p => p.id == pid) with
    | none => (.notFound "Payment not found", db, [])
    | some payDoc =>
      let payments1 := updatePaymentDoc db.payments pid fun q =>
        { q with status := st, updatedAt := some now }
      let db1 : DB := { db with payments := payments1 }
      let bid := payDoc.bookingId
      if bookingExists db1 bid then
        let bookings2 := updateBookingDoc db1.bookings bid fun b =>
          if st = "success" ∨ st = "paid" then
            { b with paymentStatus := "paid", status := "confirmed" }
          else if st = "failed" then
            { b with paymentStatus := "failed" }
          else b
        let db2 : DB := { db1 with bookings := bookings2 }
        (.ok "Payment status updated", db2, [[.payment pid], [.booking bid]])
      else (.serverError, db1, [[.payment pid]])

/-- HTTP-level result of `POST /api/v1/payments/initiate`. -/
inductive InitiateResponse where
  | badRequest (msg : String)
  | ok (msg : String)
  | badGateway (msg : String)
deriving DecidableEq, Repr

/-- `POST /api/v1/payments/initiate` (retry/start): always creates a NEW
pending payment record with a fresh reference first; if the gateway call
then fails, that record is marked `failed` with reason
`API Call Failed` and the route answers 502. -/
def initiatePaymentRoute (db : DB) (bookingId phoneNumber : Option String)
    (amount : Option Int) (uid newPaymentId reference : String)
    (gateway : GatewayOutcome) (now : Int) :
    InitiateResponse × DB × List (List DocWrite) :=
  match bookingId, phoneNumber, amount with
  | some bid, some ph, some amt =>
    if bid = "" ∨ ph = "" ∨ amt = 0 then (.badRequest "Missing details", db, [])
    else
      let payment : Payment :=
        { id := newPaymentId, bookingId := bid, userId := uid, amount := amt,
          status := "pending", customer_reference := reference,
          externalReference := none, failureReason := none, paidAt := none,
          createdAt := now, updatedAt := none }
      let db1 : DB := { db with payments := db.payments ++ [payment] }
      match gateway with
      | .accepted => (.ok "Payment prompt sent", db1, [[.payment newPaymentId]])
      | .rejected =>
        let payments2 := updatePaymentDoc db1.payments newPaymentId fun q =>
          { q with status := "failed", failureReason := some "API Call Failed" }
        let db2 : DB := { db1 with payments := payments2 }
        (.badGateway "Failed to trigger mobile money prompt", db2,
          [[.payment newPaymentId], [.payment newPaymentId]])
  | _, _, _ => (.badRequest "Missing details", db, [])

/-- Request body of `PUT /bookings/:id`.  Fields written to booking
attributes that the `Booking` structure omits as inert (guest contact,
payment method/phone, `receivedBy`) are left out here too. -/
structure UpdateBookingRequest where
  roomId : Option String
  checkIn : Option Int
  checkOut : Option Int
  status : Option String
  paymentStatus : Option String
deriving Repr

/-- HTTP-level result of `PUT /bookings/:id`. -/
inductive UpdateBookingResponse where
  | conflict (msg : String)
  | ok
  | serverError
deriving DecidableEq, Repr

/-- `PUT /bookings/:id` from `routes/bookings.js`.  The overlap re-check
(excluding the booking's own id) runs ONLY when `roomId`, `checkIn` and
`checkOut` are all supplied; any partial combination skips it entirely.
Supplied fields overwrite the stored ones (falsy strings are ignored,
matching the `if (x) updates.x = x` guards); the final `update()` on a
missing booking id throws (500). -/
def updateBookingRoute (db : DB) (bid : String) (req : UpdateBookingRequest)
    (now : Int) : UpdateBookingResponse × DB :=
  let availabilityRejected :=
    match req.roomId, req.checkIn, req.checkOut with
    | some rid, some startT, some endT =>
      !(checkAvailability db.bookings rid startT endT (some bid))
    | _, _, _ => false
  if availabilityRejected then (.conflict "Room is unavailable", db)
  else if bookingExists db bid then
    let bookings1 := updateBookingDoc db.bookings bid fun b =>
      { b with
        checkIn := req.checkIn.getD b.checkIn,
        checkOut := req.checkOut.getD b.checkOut,
        roomId := jsOr req.roomId b.roomId,
        status := jsOr req.status b.status,
        paymentStatus := jsOr req.paymentStatus b.paymentStatus,
        updatedAt := some now }
    let db1 : DB := { db with bookings := bookings1 }
    (.ok, db1)
  else (.serverError, db)

/-- Request body of `PUT /api/v1/rooms/:id` (inert fields `type`,
`amenities`, `description` omitted). -/
structure UpdateRoomRequest where
  roomNumber : Option String
  price : Option Int
  status : Option String
deriving Repr

/-- HTTP-level result of `PUT /api/v1/rooms/:id`. -/
inductive UpdateRoomResponse where
  | notFound
  | conflict (msg : String)
  | ok
deriving DecidableEq, Repr

/-- A booking that the rooms router's force-end logic truncates: it is on
the edited room, `pending` or `confirmed`, its checkout is in the future
(the Firestore query) and it already started (`checkIn <= now`). -/
def forceEndQualifies (rid : String) (now : Int) (b : Booking) : Bool :=
  decide (b.roomId = rid) &&
  decide (b.status = "confirmed" ∨ b.status = "pending") &&
  decide (b.checkOut > now) && decide (b.checkIn ≤ now)

/-- `PUT /api/v1/rooms/:id` from the rooms router.  After the not-found
and duplicate-room-number guards, a manual status change to `Available`
or `Maintenance` force-ends every in-progress booking of the room:
their `checkOut` is truncated to `now` in ONE batch (one trace unit,
committed only when non-empty), after which the room document itself is
updated as a separate write. -/
def updateRoomRoute (db : DB) (rid : String) (req : UpdateRoomRequest)
    (now : Int) : UpdateRoomResponse × DB × List (List DocWrite) :=
  match db.rooms.find? (fun r => r.id == rid) with
  | none => (.notFound, db, [])
  | some roomDoc =>
    let dupRejected :=
      match req.roomNumber with
      | some rn =>
        if rn = "" then false
        else if rn = roomDoc.roomNumber then false
        else db.rooms.any fun r => r.roomNumber == rn
      | none => false
    if dupRejected then (.conflict "Room already exists.", db, [])
    else
      let forceEnd := req.status = some "Available" ∨ req.status = some "Maintenance"
      let truncatedIds :=
        if forceEnd then
          ((db.bookings.filter (forceEndQualifies rid now)).map (·.id))
        else []
      let db1 : DB :=
        if truncatedIds.isEmpty then db
        else { db with bookings := db.bookings.map fun b =>
          if forceEndQualifies rid now b then
            { b with checkOut := now, updatedAt := some now }
          else b }
      let db2 : DB := { db1 with rooms := db1.rooms.map fun r =>
        if r.id = rid then
          { r with
            roomNumber := jsOr req.roomNumber r.roomNumber,
            price := (match req.price with
                      | some p => if p = 0 then r.price else p
                      | none => r.price),
            status := jsOr req.status r.status }
        else r }
      let trace :=
        (if truncatedIds.isEmpty then []
         else [truncatedIds.map DocWrite.booking]) ++ [[DocWrite.room rid]]
      (.ok, db2, trace)

/-- Day `d` of the shared test calendar, in milliseconds since the epoch
of the scenario (day 10 stands for Jan 10). -/
def day (d : Int) : Int := d * msPerDay

/-- Room `R` of the end-to-end scenario: active, nightly price 100,
capacity 2. -/
def roomR : Room :=
  { id := "R", roomNumber := "101", price := 100, pricePerNight := 100,
    capacity := 2, isActive := true, status := "Available" }

/-- Initial store of the end-to-end scenario: one active room, no
bookings, no payments. -/
def dbScenario : DB := { rooms := [roomR], bookings := [], payments := [] }

/-- The booking request of the end-to-end scenario: room `R`,
`[Jan 10, Jan 12)`, no explicit status (so the `pending`/`unpaid`
defaults apply). -/
def reqScenario : CreateBookingRequest :=
  { roomId := "R", checkIn := some (day 10), checkOut := some (day 12),
    guestPhone := some "0700000001", guests := some 2, status := none,
    paymentMethod := some "Mobile Money", paymentStatus := none,
    receivedBy := none, paymentPhone := some "0700000001" }

/-- Store state after the scenario's booking creation succeeds. -/
def dbAfterScenario : DB :=
  (createBooking dbScenario reqScenario "u1" "B1" "P1" "TX-1"
    .accepted (day 5)).2

/-- A stored `pending`/`unpaid` booking of room `R` over `[Jan 10, Jan 12)`,
awaiting payment. -/
def bookingB1 : Booking :=
  { id := "B1", roomId := "R", userId := "u1", checkIn := day 10,
    checkOut := day 12, totalPrice := 200, status := "pending",
    paymentStatus := "unpaid", createdAt := day 5, updatedAt := none }

/-- The pending payment record initiated for `bookingB1`. -/
def paymentP1 : Payment :=
  { id := "P1", bookingId := "B1", userId := "u1", amount := 200,
    status := "pending", customer_reference := "TX-1",
    externalReference := none, failureReason := none, paidAt := none,
    createdAt := day 5, updatedAt := none }

/-- Store with one pending booking and its pending payment. -/
def dbPay : DB := { rooms := [roomR], bookings := [bookingB1],
                    payments := [paymentP1] }

/-- A `failed` webhook delivery for `ref` carrying a reason message. -/
def failedDelivery (ref msg : String) : WebhookPayload :=
  { status := some "failed", customer_reference := some ref,
    provider_transaction_id := none, message := some msg }

/-- A `success` webhook delivery for `ref` carrying the provider's
transaction id. -/
def successDelivery (ref txid : String) : WebhookPayload :=
  { status := some "success", customer_reference := some ref,
    provider_transaction_id := some txid, message := none }

/-- `paymentP1` after a success confirmation processed at Jan 20. -/
def paymentP1success : Payment :=
  { paymentP1 with status := "success", externalReference := some "EXT-9",
                   paidAt := some (day 20) }

/-- `bookingB1` after the payment-driven auto-confirmation at Jan 20. -/
def bookingB1confirmed : Booking :=
  { bookingB1 with status := "confirmed", paymentStatus := "paid",
                   updatedAt := some (day 20) }

/-- Store in which `paymentP1` already reached the terminal `success`
status and its booking is confirmed. -/
def dbTerminal : DB := { rooms := [roomR], bookings := [bookingB1confirmed],
                         payments := [paymentP1success] }

/-- A confirmed booking of room `R` over `[Jan 20, Jan 22)`, used as the
standing reservation an admin edit collides with. -/
def bookingA : Booking :=
  { id := "A", roomId := "R", userId := "u2", checkIn := day 20,
    checkOut := day 22, totalPrice := 200, status := "confirmed",
    paymentStatus := "paid", createdAt := day 1, updatedAt := none }

/-- Store with the standing booking `A` and the editable booking `B1`. -/
def dbEdit : DB := { rooms := [roomR], bookings := [bookingA, bookingB1],
                     payments := [] }

/-- An admin edit of a booking that supplies ONLY a new check-out
(Jan 21), leaving room and check-in implicit. -/
def partialDateEdit : UpdateBookingRequest :=
  { roomId := none, checkIn := none, checkOut := some (day 21),
    status := none, paymentStatus := none }

/-- An admin edit of a booking that supplies room `R` and BOTH dates
(`[Jan 10, Jan 21)`), triggering the overlap re-check. -/
def fullConflictEdit : UpdateBookingRequest :=
  { roomId := some "R", checkIn := some (day 10), checkOut := some (day 21),
    status := none, paymentStatus := none }

/-- An in-progress booking of room `R` at `now = day 10`:
`checkIn = day 9 ≤ now < checkOut = day 11`, status `pending`. -/
def bookingInProgress : Booking :=
  { id := "IP", roomId := "R", userId := "u1", checkIn := day 9,
    checkOut := day 11, totalPrice := 200, status := "pending",
    paymentStatus := "unpaid", createdAt := day 1, updatedAt := none }

/-- A future confirmed booking of room `R` (`[Jan 12, Jan 14)`), not in
progress at `day 10`. -/
def bookingFuture : Booking :=
  { id := "FU", roomId := "R", userId := "u2", checkIn := day 12,
    checkOut := day 14, totalPrice := 200, status := "confirmed",
    paymentStatus := "paid", createdAt := day 1, updatedAt := none }

/-- A cancelled booking of room `R` that would be in progress at `day 10`
were it not cancelled. -/
def bookingCancelledMid : Booking :=
  { id := "CA", roomId := "R", userId := "u3", checkIn := day 9,
    checkOut := day 11, totalPrice := 200, status := "cancelled",
    paymentStatus := "unpaid", createdAt := day 1, updatedAt := none }

/-- Store for the manual-override scenario: room `R` with one
in-progress, one future and one cancelled booking. -/
def dbOverride : DB :=
  { rooms := [roomR],
    bookings := [bookingInProgress, bookingFuture, bookingCancelledMid],
    payments := [] }

/-- The admin room edit that forces status `Maintenance`. -/
def maintenanceEdit : UpdateRoomRequest :=
  { roomNumber := none, price := none, status := some "Maintenance" }

/-- C2: `checkAvailability` returns `false` iff some stored booking for the
room, with status `pending` or `confirmed` and distinct from the excluded
id, overlaps the candidate half-open interval in the sense
`candidateStart < existingEnd ∧ candidateEnd > existingStart`; touching
endpoints therefore never count as overlap. -/
theorem C2_checkAvailability_false_iff_overlap (bookings : List Booking)
    (roomId0 : String) (newStart newEnd : Int) (excl : Option String) :
    checkAvailability bookings roomId0 newStart newEnd excl = false ↔
      ∃ b ∈ bookings, b.roomId = roomId0 ∧
        (b.status = "pending" ∨ b.status = "confirmed") ∧
        excl ≠ some b.id ∧ newStart < b.checkOut ∧ newEnd > b.checkIn := by
  rw [Bool.eq_false_iff]
  simp only [checkAvailability, Ne, List.all_eq_true]
  constructor
  · intro h
    push_neg at h
    obtain ⟨b, hb, hfail⟩ := h
    refine ⟨b, hb, ?_⟩
    by_cases hroom : b.roomId = roomId0 ∧ (b.status = "confirmed" ∨ b.status = "pending")
    · rw [if_pos hroom] at hfail
      by_cases hex : excl = some b.id
      · rw [if_pos hex] at hfail; exact absurd rfl hfail
      · rw [if_neg hex] at hfail
        simp only [ne_eq, decide_eq_true_eq, not_not] at hfail
        push_neg at hfail
        exact ⟨hroom.1, hroom.2.symm, hex, hfail.1, hfail.2⟩
    · rw [if_neg hroom] at hfail; exact absurd rfl hfail
  · rintro ⟨b, hb, hroom, hstatus, hex, hov1, hov2⟩ hall
    have := hall b hb
    rw [if_pos ⟨hroom, hstatus.symm⟩, if_neg hex] at this
    simp only [decide_eq_true_eq] at this
    exact this ⟨hov1, hov2⟩

/-- C1 (code bug): creating the scenario booking for room `R`,
`[Jan 10, Jan 12)`, via `POST /bookings` with the default lifecycle
status succeeds and stores a `pending`/`unpaid` booking, and the
creation-path overlap checker deems `R` unavailable for
`[Jan 11, Jan 13)` — yet `POST /api/v1/availability` still lists `R` as
available for `[Jan 11, Jan 13)`, because that endpoint filters bookings
by status exactly `"confirmed"` and so ignores the `pending` booking.
(The touching range `[Jan 12, Jan 14)` is reported available, as the
claim requires.) -/
theorem C1_pending_booking_invisible_to_availability_route :
    (createBooking dbScenario reqScenario "u1" "B1" "P1" "TX-1"
        .accepted (day 5)).1
      = .created "B1" "Booking created. Payment prompt sent to phone." ∧
    dbAfterScenario.bookings.map Booking.status = ["pending"] ∧
    dbAfterScenario.bookings.map Booking.paymentStatus = ["unpaid"] ∧
    checkAvailability dbAfterScenario.bookings "R" (day 11) (day 13) none
      = false ∧
    availabilityCheckRoute dbAfterScenario 0 (some (day 11)) (some (day 13)) none
      = .ok [("R", 200, 2)] ∧
    availabilityCheckRoute dbAfterScenario 0 (some (day 12)) (some (day 14)) none
      = .ok [("R", 200, 2)] := by
  decide

/-- C3 (code bug): the webhook's success confirmation commits the payment
write and the booking confirmation as ONE atomic batch, but
`PUT /api/v1/payments/:id` with status `success` on the same store issues
them as two SEPARATE sequential writes; after the first and before the
second the store shows the payment `success` with the booking still
`pending` — exactly the split state the claim rules out. -/
theorem C3_put_payment_success_is_not_atomic :
    (paymentsWebhook dbPay (successDelivery "TX-1" "EXT-9") (day 20)).2.2
      = [[DocWrite.payment "P1", DocWrite.booking "B1"]] ∧
    (updatePaymentStatusRoute dbPay "P1" (some "success") (day 20)).2.2
      = [[DocWrite.payment "P1"], [DocWrite.booking "B1"]] ∧
    (updatePaymentStatusRoute dbPay "P1" (some "success") (day 20)).1
      = .ok "Payment status updated" ∧
    ((updatePaymentStatusRoute dbPay "P1" (some "success") (day 20)).2.1.payments.map
        Payment.status) = ["success"] ∧
    ((updatePaymentStatusRoute dbPay "P1" (some "success") (day 20)).2.1.bookings.map
        Booking.status) = ["confirmed"] := by
  decide

/-- C10: a webhook body whose `customer_reference` is absent is rejected
with HTTP 400 `Missing Ref` before any lookup, and no Payment or Booking
record is touched. -/
theorem C10_missing_reference_rejected_without_writes
    (db : DB) (p : WebhookPayload) (now : Int)
    (h : p.customer_reference = none) :
    paymentsWebhook db p now = (.badRequest "Missing Ref", db, []) := by
  simp [paymentsWebhook, h]

/-- Witness for C10: a concrete success payload with no reference against
a concrete store. -/
theorem C10_missing_reference_rejected_without_writes_witness :
    (WebhookPayload.mk (some "success") none (some "EXT-1") none).customer_reference
      = none ∧
    paymentsWebhook dbPay (WebhookPayload.mk (some "success") none (some "EXT-1") none)
        (day 20)
      = (.badRequest "Missing Ref", dbPay, []) :=
  ⟨rfl, C10_missing_reference_rejected_without_writes dbPay _ (day 20) rfl⟩

/-- C8: a webhook delivery whose reference matches no stored payment is
acknowledged with 200 `OK` and mutates no record. -/
theorem C8_unmatched_reference_acknowledged_without_writes
    (db : DB) (p : WebhookPayload) (ref : String) (now : Int)
    (h1 : p.customer_reference = some ref) (h2 : ref ≠ "")
    (h3 : db.payments.find? (fun pay => pay.customer_reference == ref) = none) :
    paymentsWebhook db p now = (.ok, db, []) := by
  simp [paymentsWebhook, h1, h2, h3]

/-- Witness for C8: reference `TX-404` matches nothing in `dbPay`. -/
theorem C8_unmatched_reference_acknowledged_without_writes_witness :
    (successDelivery "TX-404" "EXT-1").customer_reference = some "TX-404" ∧
    ("TX-404" : String) ≠ "" ∧
    dbPay.payments.find? (fun pay => pay.customer_reference == "TX-404") = none ∧
    paymentsWebhook dbPay (successDelivery "TX-404" "EXT-1") (day 20)
      = (.ok, dbPay, []) :=
  ⟨rfl, by decide, by decide,
    C8_unmatched_reference_acknowledged_without_writes dbPay _ "TX-404" (day 20)
      rfl (by decide) (by decide)⟩

/-- C4 counterexample: `paymentP1success` is already in the terminal
`success` status, yet a later `failed` delivery for the same reference
changes the Payment record to `failed` — the first terminal status does
not win. -/
theorem C4_counterexample_failed_overwrites_success :
    paymentP1success.status = "success" ∧
    ((paymentsWebhook dbTerminal (failedDelivery "TX-1" "declined") (day 21)).2.1.payments.map
        Payment.status) = ["failed"] := by
  decide

/-- C5 counterexample: editing booking `B1` (room `R`, `[Jan 10, Jan 12)`)
with ONLY a new check-out of Jan 21 succeeds even though the merged
interval `[Jan 10, Jan 21)` conflicts with confirmed booking `A`
(`[Jan 20, Jan 22)`) — the partial date change bypasses the overlap
validation the claim promises. -/
theorem C5_counterexample_partial_edit_bypasses_check :
    (updateBookingRoute dbEdit "B1" partialDateEdit (day 1)).1 = .ok ∧
    checkAvailability dbEdit.bookings "R" (day 10) (day 21) (some "B1") = false ∧
    ((updateBookingRoute dbEdit "B1" partialDateEdit (day 1)).2.bookings.map
        (fun b => (b.id, b.checkIn, b.checkOut, b.status))) =
      [("A", day 20, day 22, "confirmed"), ("B1", day 10, day 21, "pending")] := by
  decide

/-- C6 counterexample: when the gateway rejects the submission during the
scenario booking creation, the request still succeeds with the degraded
message and the booking is stored `pending`/`unpaid`, but the initiating
Payment record keeps status `pending` with no failure reason — it is NOT
marked `failed` as the claim states. -/
theorem C6_counterexample_payment_not_marked_failed :
    (createBooking dbScenario reqScenario "u1" "B1" "P1" "TX-1" .rejected (day 5)).1
      = .created "B1" "Booking created, but payment prompt failed. Try manually." ∧
    ((createBooking dbScenario reqScenario "u1" "B1" "P1" "TX-1" .rejected (day 5)).2.payments.map
        (fun p => (p.status, p.failureReason))) = [("pending", none)] ∧
    ((createBooking dbScenario reqScenario "u1" "B1" "P1" "TX-1" .rejected (day 5)).2.bookings.map
        (fun b => (b.status, b.paymentStatus))) = [("pending", "unpaid")] := by
  decide

/-- C7 counterexample: delivering the same success payload at Jan 20 and
again at Jan 21 does not leave the store in the state the single Jan 20
delivery produced — the second delivery rewrites the payment's `paidAt`
and the booking's `updatedAt` to Jan 21. -/
theorem C7_counterexample_second_delivery_moves_timestamps :
    (paymentsWebhook
        (paymentsWebhook dbPay (successDelivery "TX-1" "EXT-9") (day 20)).2.1
        (successDelivery "TX-1" "EXT-9") (day 21)).2.1
      ≠ (paymentsWebhook dbPay (successDelivery "TX-1" "EXT-9") (day 20)).2.1 := by
  decide

/-- C9: when an admin edit sets a room's manual status to `Available` or
`Maintenance`, every in-progress booking of that room
(`checkIn ≤ now < checkOut`, status `pending` or `confirmed`) has its
`checkOut` truncated to `now` with its lifecycle status untouched,
bookings not in progress are untouched, all truncations are committed as
ONE atomic batch, and the room document itself is updated to the
requested status as the accompanying write. -/
theorem C9_force_end_truncates_in_progress_bookings
    (db : DB) (rid : String) (req : UpdateRoomRequest) (now : Int)
    (room : Room)
    (hroom : db.rooms.find? (fun r => r.id == rid) = some room)
    (hnum : req.roomNumber = none)
    (hst : req.status = some "Available" ∨ req.status = some "Maintenance") :
    (updateRoomRoute db rid req now).1 = .ok ∧
    (updateRoomRoute db rid req now).2.1.bookings
      = db.bookings.map (fun b =>
          if forceEndQualifies rid now b then
            { b with checkOut := now, updatedAt := some now }
          else b) ∧
    (updateRoomRoute db rid req now).2.1.rooms
      = db.rooms.map (fun r =>
          if r.id = rid then
            { r with
              roomNumber := jsOr req.roomNumber r.roomNumber,
              price := (match req.price with
                        | some p => if p = 0 then r.price else p
                        | none => r.price),
              status := jsOr req.status r.status }
          else r) ∧
    (updateRoomRoute db rid req now).2.2
      = (if ((db.bookings.filter (forceEndQualifies rid now)).map (·.id)).isEmpty
         then []
         else [((db.bookings.filter (forceEndQualifies rid now)).map (·.id)).map
                DocWrite.booking])
        ++ [[DocWrite.room rid]] := by
  have hmapid :
      (((db.bookings.filter (forceEndQualifies rid now)).map (·.id)).isEmpty = true) →
      db.bookings.map (fun b =>
          if forceEndQualifies rid now b then
            { b with checkOut := now, updatedAt := some now }
          else b) = db.bookings := by
    intro hemp
    rw [List.isEmpty_iff, List.map_eq_nil_iff] at hemp
    have hnone := List.filter_eq_nil_iff.mp hemp
    conv_rhs => rw [← List.map_id db.bookings]
    apply List.map_congr_left
    intro b hb
    simp [hnone b hb]
  simp only [updateRoomRoute, hroom, hnum]
  rw [if_neg (by simp)]
  rw [if_pos hst]
  by_cases hemp :
      (((db.bookings.filter (forceEndQualifies rid now)).map (·.id)).isEmpty = true)
  · refine ⟨?_, ?_, ?_, ?_⟩ <;> simp [hemp, hmapid hemp]
  · refine ⟨?_, ?_, ?_, ?_⟩ <;> simp [hemp]

/-- Witness for C9: forcing room `R` to `Maintenance` at Jan 10 truncates
the in-progress booking and leaves the future and cancelled ones alone. -/
theorem C9_force_end_truncates_in_progress_bookings_witness :
    dbOverride.rooms.find? (fun r => r.id == "R") = some roomR ∧
    maintenanceEdit.roomNumber = none ∧
    (maintenanceEdit.status = some "Available" ∨
      maintenanceEdit.status = some "Maintenance") ∧
    ((updateRoomRoute dbOverride "R" maintenanceEdit (day 10)).1 = .ok ∧
     (updateRoomRoute dbOverride "R" maintenanceEdit (day 10)).2.1.bookings
       = dbOverride.bookings.map (fun b =>
           if forceEndQualifies "R" (day 10) b then
             { b with checkOut := day 10, updatedAt := some (day 10) }
           else b) ∧
     (updateRoomRoute dbOverride "R" maintenanceEdit (day 10)).2.1.rooms
       = dbOverride.rooms.map (fun r =>
           if r.id = "R" then
             { r with
               roomNumber := jsOr maintenanceEdit.roomNumber r.roomNumber,
               price := (match maintenanceEdit.price with
                         | some p => if p = 0 then r.price else p
                         | none => r.price),
               status := jsOr maintenanceEdit.status r.status }
           else r) ∧
     (updateRoomRoute dbOverride "R" maintenanceEdit (day 10)).2.2
       = (if ((dbOverride.bookings.filter (forceEndQualifies "R" (day 10))).map
                (·.id)).isEmpty
          then []
          else [((dbOverride.bookings.filter (forceEndQualifies "R" (day 10))).map
                  (·.id)).map DocWrite.booking])
         ++ [[DocWrite.room "R"]]) :=
  ⟨by decide, rfl, Or.inr rfl,
    C9_force_end_truncates_in_progress_bookings dbOverride "R" maintenanceEdit
      (day 10) roomR (by decide) rfl (Or.inr rfl)⟩

/-- C6 (amended): when the gateway rejects the Mobile Money submission
during booking creation, the booking-creation request still succeeds as a
degraded success (201 with the "payment prompt failed" message) and the
booking is stored with the default `pending`/`unpaid` status — but the
initiating Payment record is NOT marked failed: it keeps its initial
`pending` status with no failure reason (only the separate
`POST /payments/initiate` retry marks its own new record failed). -/
theorem C6_gateway_failure_is_degraded_success
    (db : DB) (req : CreateBookingRequest)
    (uid bId pId ref : String) (now startT endT : Int) (room : Room)
    (hci : req.checkIn = some startT) (hco : req.checkOut = some endT)
    (hlt : startT < endT)
    (hroom : db.rooms.find? (fun r => r.id == req.roomId) = some room)
    (havail : checkAvailability db.bookings req.roomId startT endT none = true)
    (hstat : req.status = none) (hps : req.paymentStatus = none)
    (hmm : req.paymentMethod = some "Mobile Money")
    (hphone : formatPhoneNumber req.paymentPhone ≠ none) :
    createBooking db req uid bId pId ref .rejected now
      = (.created bId "Booking created, but payment prompt failed. Try manually.",
         { db with
           bookings := db.bookings ++
             [{ id := bId, roomId := req.roomId, userId := uid,
                checkIn := startT, checkOut := endT,
                totalPrice := calculateTotalPrice room.price startT endT,
                status := "pending", paymentStatus := "unpaid",
                createdAt := now, updatedAt := none }],
           payments := db.payments ++
             [{ id := pId, bookingId := bId, userId := uid,
                amount := calculateTotalPrice room.price startT endT,
                status := "pending", customer_reference := ref,
                externalReference := none, failureReason := none,
                paidAt := none, createdAt := now, updatedAt := none }] }) := by
  simp [createBooking, hci, hco, not_le.mpr hlt, hroom, havail,
    hstat, hps, hmm, hphone, jsOr]

/-- Witness for C6: the scenario booking request with a rejecting
gateway. -/
theorem C6_gateway_failure_is_degraded_success_witness :
    reqScenario.checkIn = some (day 10) ∧
    reqScenario.checkOut = some (day 12) ∧
    day 10 < day 12 ∧
    dbScenario.rooms.find? (fun r => r.id == reqScenario.roomId) = some roomR ∧
    checkAvailability dbScenario.bookings reqScenario.roomId (day 10) (day 12)
      none = true ∧
    reqScenario.status = none ∧
    reqScenario.paymentStatus = none ∧
    reqScenario.paymentMethod = some "Mobile Money" ∧
    formatPhoneNumber reqScenario.paymentPhone ≠ none ∧
    createBooking dbScenario reqScenario "u1" "B1" "P1" "TX-1" .rejected (day 5)
      = (.created "B1" "Booking created, but payment prompt failed. Try manually.",
         { dbScenario with
           bookings := dbScenario.bookings ++
             [{ id := "B1", roomId := reqScenario.roomId, userId := "u1",
                checkIn := day 10, checkOut := day 12,
                totalPrice := calculateTotalPrice roomR.price (day 10) (day 12),
                status := "pending", paymentStatus := "unpaid",
                createdAt := day 5, updatedAt := none }],
           payments := dbScenario.payments ++
             [{ id := "P1", bookingId := "B1", userId := "u1",
                amount := calculateTotalPrice roomR.price (day 10) (day 12),
                status := "pending", customer_reference := "TX-1",
                externalReference := none, failureReason := none,
                paidAt := none, createdAt := day 5, updatedAt := none }] }) :=
  ⟨rfl, rfl, by decide, by decide, by decide, rfl, rfl, rfl, by decide,
    C6_gateway_failure_is_degraded_success dbScenario reqScenario "u1" "B1" "P1"
      "TX-1" (day 5) (day 10) (day 12) roomR rfl rfl (by decide) (by decide)
      (by decide) rfl rfl rfl (by decide)⟩

/-- C5 (amended): the admin booking edit re-runs the overlap checker —
excluding the booking's own id — ONLY when `roomId`, `checkIn` and
`checkOut` are all supplied, and then rejects with a conflict exactly
when the checker reports unavailable; when any of the three is omitted,
no availability validation happens at all and the edit is applied
regardless of the conflicts it creates, so a partial date change CAN
bypass the validation. -/
theorem C5_overlap_recheck_only_on_full_edit
    (db : DB) (bid : String) (req : UpdateBookingRequest) (now : Int) :
    (∀ rid startT endT, req.roomId = some rid → req.checkIn = some startT →
      req.checkOut = some endT →
      ((updateBookingRoute db bid req now).1 = .conflict "Room is unavailable" ↔
        checkAvailability db.bookings rid startT endT (some bid) = false)) ∧
    ((req.roomId = none ∨ req.checkIn = none ∨ req.checkOut = none) →
      bookingExists db bid = true →
      updateBookingRoute db bid req now
        = (.ok, { db with bookings := updateBookingDoc db.bookings bid fun b =>
            { b with
              checkIn := req.checkIn.getD b.checkIn,
              checkOut := req.checkOut.getD b.checkOut,
              roomId := jsOr req.roomId b.roomId,
              status := jsOr req.status b.status,
              paymentStatus := jsOr req.paymentStatus b.paymentStatus,
              updatedAt := some now } })) := by
  constructor
  · intro rid startT endT h1 h2 h3
    simp only [updateBookingRoute, h1, h2, h3]
    cases hca : checkAvailability db.bookings rid startT endT (some bid)
    · simp
    · simp only [Bool.not_true, if_false]
      by_cases hex : bookingExists db bid = true
      · simp [hex]
      · simp [hex]
  · intro hmiss hex
    rcases hmiss with h | h | h
    · simp [updateBookingRoute, h, hex]
    · cases hr : req.roomId <;> simp [updateBookingRoute, h, hr, hex]
    · cases hr : req.roomId <;> cases hci : req.checkIn <;>
        simp [updateBookingRoute, h, hr, hci, hex]

/-- Witness for C5: the full edit `[Jan 10, Jan 21)` of booking `B1` is
rejected as a conflict (confirmed booking `A` overlaps), while the
partial edit supplying only the new check-out is applied with no
availability check at all. -/
theorem C5_overlap_recheck_only_on_full_edit_witness :
    (fullConflictEdit.roomId = some "R" ∧
     fullConflictEdit.checkIn = some (day 10) ∧
     fullConflictEdit.checkOut = some (day 21) ∧
     ((updateBookingRoute dbEdit "B1" fullConflictEdit (day 1)).1
        = .conflict "Room is unavailable" ↔
       checkAvailability dbEdit.bookings "R" (day 10) (day 21) (some "B1")
        = false)) ∧
    ((partialDateEdit.roomId = none ∨ partialDateEdit.checkIn = none ∨
       partialDateEdit.checkOut = none) ∧
     bookingExists dbEdit "B1" = true ∧
     updateBookingRoute dbEdit "B1" partialDateEdit (day 1)
       = (.ok, { dbEdit with bookings := updateBookingDoc dbEdit.bookings "B1" fun b =>
             { b with
               checkIn := partialDateEdit.checkIn.getD b.checkIn,
               checkOut := partialDateEdit.checkOut.getD b.checkOut,
               roomId := jsOr partialDateEdit.roomId b.roomId,
               status := jsOr partialDateEdit.status b.status,
               paymentStatus := jsOr partialDateEdit.paymentStatus b.paymentStatus,
               updatedAt := some (day 1) } })) :=
  ⟨⟨rfl, rfl, rfl,
     (C5_overlap_recheck_only_on_full_edit dbEdit "B1" fullConflictEdit (day 1)).1
       "R" (day 10) (day 21) rfl rfl rfl⟩,
   Or.inl rfl, by decide,
     (C5_overlap_recheck_only_on_full_edit dbEdit "B1" partialDateEdit (day 1)).2
       (Or.inl rfl) (by decide)⟩

/-- C4 (amended): a later webhook delivery for an already-terminal Payment
is NOT rejected — the last delivery wins.  For any matched payment
(whatever its current status, including terminal `success` or `failed`):
a `failed` delivery overwrites the Payment's status to `failed` with the
delivered reason and leaves all bookings untouched, and a `success`
delivery overwrites the Payment to `success` (with the delivered
transaction id and a fresh paid timestamp) and (re)writes the owning
booking to `confirmed`/`paid`. -/
theorem C4_later_terminal_status_overwrites
    (db : DB) (pay : Payment) (ref msg txid : String) (now : Int)
    (href : ref ≠ "")
    (hfind : db.payments.find? (fun q => q.customer_reference == ref) = some pay)
    (hbook : bookingExists db pay.bookingId = true) :
    paymentsWebhook db (failedDelivery ref msg) now
      = (.ok,
         { db with payments := updatePaymentDoc db.payments pay.id fun q =>
             { q with status := "failed", failureReason := some msg } },
         [[DocWrite.payment pay.id]]) ∧
    paymentsWebhook db (successDelivery ref txid) now
      = (.ok,
         { db with
           payments := updatePaymentDoc db.payments pay.id fun q =>
             { q with status := "success", externalReference := some txid,
                      paidAt := some now },
           bookings := updateBookingDoc db.bookings pay.bookingId fun b =>
             { b with paymentStatus := "paid", status := "confirmed",
                      updatedAt := some now } },
         [[DocWrite.payment pay.id, DocWrite.booking pay.bookingId]]) := by
  have hsf : webhookStatusIsSuccess (some "failed") = false := by decide
  have hss : webhookStatusIsSuccess (some "success") = true := by decide
  constructor
  · simp [paymentsWebhook, failedDelivery, href, hfind, hsf]
  · simp [paymentsWebhook, successDelivery, href, hfind, hss, hbook]

/-- Witness for C4: `paymentP1success` is already terminal `success`, yet
the failed delivery overwrites it to `failed` (bookings untouched), and a
repeated success delivery rewrites both records afresh. -/
theorem C4_later_terminal_status_overwrites_witness :
    ("TX-1" : String) ≠ "" ∧
    dbTerminal.payments.find? (fun q => q.customer_reference == "TX-1")
      = some paymentP1success ∧
    bookingExists dbTerminal paymentP1success.bookingId = true ∧
    (paymentsWebhook dbTerminal (failedDelivery "TX-1" "declined") (day 21)
      = (.ok,
         { dbTerminal with payments := updatePaymentDoc dbTerminal.payments paymentP1success.id fun q =>
             { q with status := "failed", failureReason := some "declined" } },
         [[DocWrite.payment paymentP1success.id]]) ∧
     paymentsWebhook dbTerminal (successDelivery "TX-1" "EXT-2") (day 21)
      = (.ok,
         { dbTerminal with
           payments := updatePaymentDoc dbTerminal.payments paymentP1success.id fun q =>
             { q with status := "success", externalReference := some "EXT-2",
                      paidAt := some (day 21) },
           bookings := updateBookingDoc dbTerminal.bookings paymentP1success.bookingId fun b =>
             { b with paymentStatus := "paid", status := "confirmed",
                      updatedAt := some (day 21) } },
         [[DocWrite.payment paymentP1success.id,
           DocWrite.booking paymentP1success.bookingId]])) :=
  ⟨by decide, by decide, by decide,
    C4_later_terminal_status_overwrites dbTerminal paymentP1success "TX-1"
      "declined" "EXT-2" (day 21) (by decide) (by decide) (by decide)⟩

/-- Rewriting list elements with a map that leaves a Boolean predicate
invariant does not change where `find?` first succeeds: the result is the
rewrite of the original hit. -/
theorem find_map_of_pred_invariant {α : Type} (l : List α) (g : α → α)
    (pred : α → Bool) (h : ∀ a, pred (g a) = pred a) :
    (l.map g).find? pred = (l.find? pred).map g := by
  induction l with
  | nil => rfl
  | cons a t ih =>
    by_cases ha : pred a = true
    · rw [List.map_cons, List.find?_cons_of_pos _ (by rw [h a]; exact ha),
        List.find?_cons_of_pos _ ha]
      rfl
    · rw [List.map_cons,
        List.find?_cons_of_neg _ (by rw [h a]; simpa using ha),
        List.find?_cons_of_neg _ (by simpa using ha)]
      exact ih

/-- Rewriting list elements with a map that leaves a Boolean predicate
invariant does not change `any`. -/
theorem any_map_of_pred_invariant {α : Type} (l : List α) (g : α → α)
    (pred : α → Bool) (h : ∀ a, pred (g a) = pred a) :
    (l.map g).any pred = l.any pred := by
  induction l with
  | nil => rfl
  | cons a t ih => simp [h a, ih]

/-- Two successive in-place payment rewrites at the same id compose. -/
theorem updatePaymentDoc_updatePaymentDoc (l : List Payment) (pid : String)
    (f g : Payment → Payment) (hid : ∀ p, (f p).id = p.id) :
    updatePaymentDoc (updatePaymentDoc l pid f) pid g
      = updatePaymentDoc l pid (fun p => g (f p)) := by
  simp only [updatePaymentDoc, List.map_map]
  apply List.map_congr_left
  intro p _
  by_cases hp : p.id = pid
  · simp [Function.comp, hp, hid]
  · simp [Function.comp, hp]

/-- Two successive in-place booking rewrites at the same id compose. -/
theorem updateBookingDoc_updateBookingDoc (l : List Booking) (bid : String)
    (f g : Booking → Booking) (hid : ∀ b, (f b).id = b.id) :
    updateBookingDoc (updateBookingDoc l bid f) bid g
      = updateBookingDoc l bid (fun b => g (f b)) := by
  simp only [updateBookingDoc, List.map_map]
  apply List.map_congr_left
  intro b _
  by_cases hb : b.id = bid
  · simp [Function.comp, hb, hid]
  · simp [Function.comp, hb]

/-- C7 (amended): delivering the same webhook payload twice leaves the
Payment/Booking store in exactly the state a SINGLE delivery at the
second delivery's time produces: the second success delivery rewrites the
same fields with the same values, except that the server-assigned
`paidAt`/`updatedAt` timestamps move to the second delivery's time. -/
theorem C7_double_delivery_equals_single_delivery_at_second_time
    (db : DB) (p : WebhookPayload) (t1 t2 : Int) :
    (paymentsWebhook (paymentsWebhook db p t1).2.1 p t2).2.1
      = (paymentsWebhook db p t2).2.1 := by
  match hp : p.customer_reference with
  | none => simp [paymentsWebhook, hp]
  | some ref =>
  by_cases href : ref = ""
  · simp [paymentsWebhook, hp, href]
  · cases hfind : db.payments.find? (fun q => q.customer_reference == ref) with
    | none => simp [paymentsWebhook, hp, href, hfind]
    | some pay =>
      by_cases hs : webhookStatusIsSuccess p.status = true
      · by_cases hb : bookingExists db pay.bookingId = true
        · have hstep1 : (paymentsWebhook db p t1).2.1
              = { db with
                  payments := updatePaymentDoc db.payments pay.id (fun q =>
                    { q with status := "success",
                             externalReference := p.provider_transaction_id,
                             paidAt := some t1 }),
                  bookings := updateBookingDoc db.bookings pay.bookingId (fun b =>
                    { b with paymentStatus := "paid", status := "confirmed",
                             updatedAt := some t1 }) } := by
            simp [paymentsWebhook, hp, href, hfind, hs, hb]
          have hfind2 : (updatePaymentDoc db.payments pay.id (fun q =>
                { q with status := "success",
                         externalReference := p.provider_transaction_id,
                         paidAt := some t1 })).find?
                (fun q => q.customer_reference == ref)
              = some
                  { pay with
                    status := "success",
                    externalReference := p.provider_transaction_id,
                    paidAt := some t1 } := by
            simp only [updatePaymentDoc]
            rw [find_map_of_pred_invariant _ _ _ (by
              intro q
              by_cases hq : q.id = pay.id
              · simp [hq]
              · simp [hq])]
            rw [hfind]
            simp
          have hb2 : bookingExists
              { db with
                payments := updatePaymentDoc db.payments pay.id (fun q =>
                  { q with status := "success",
                           externalReference := p.provider_transaction_id,
                           paidAt := some t1 }),
                bookings := updateBookingDoc db.bookings pay.bookingId (fun b =>
                  { b with paymentStatus := "paid", status := "confirmed",
                           updatedAt := some t1 }) } pay.bookingId = true := by
            simp only [bookingExists, updateBookingDoc]
            rw [any_map_of_pred_invariant _ _ _ (by
              intro b
              by_cases hib : b.id = pay.bookingId
              · simp [hib]
              · simp [hib])]
            exact hb
          have hstep2 : (paymentsWebhook db p t2).2.1
              = { db with
                  payments := updatePaymentDoc db.payments pay.id (fun q =>
                    { q with status := "success",
                             externalReference := p.provider_transaction_id,
                             paidAt := some t2 }),
                  bookings := updateBookingDoc db.bookings pay.bookingId (fun b =>
                    { b with paymentStatus := "paid", status := "confirmed",
                             updatedAt := some t2 }) } := by
            simp [paymentsWebhook, hp, href, hfind, hs, hb]
          rw [hstep1, hstep2]
          simp only [paymentsWebhook, hp]
          rw [if_neg href, hfind2]
          simp [hs, hb2]
          exact ⟨updateBookingDoc_updateBookingDoc db.bookings pay.bookingId
              (fun b => { b with status := "confirmed", paymentStatus := "paid",
                                 updatedAt := some t1 })
              (fun b => { b with status := "confirmed", paymentStatus := "paid",
                                 updatedAt := some t2 })
              (fun b => rfl),
            updatePaymentDoc_updatePaymentDoc db.payments pay.id
              (fun q => { q with status := "success",
                                 externalReference := p.provider_transaction_id,
                                 paidAt := some t1 })
              (fun q => { q with status := "success",
                                 externalReference := p.provider_transaction_id,
                                 paidAt := some t2 })
              (fun q => rfl)⟩
        · simp [paymentsWebhook, hp, href, hfind, hs, hb]
      · have hstep1 : (paymentsWebhook db p t1).2.1
            = { db with
                payments := updatePaymentDoc db.payments pay.id (fun q =>
                  { q with status := "failed", failureReason := p.message }) } := by
          simp [paymentsWebhook, hp, href, hfind, hs]
        have hfind2 : (updatePaymentDoc db.payments pay.id (fun q =>
              { q with status := "failed", failureReason := p.message })).find?
              (fun q => q.customer_reference == ref)
            = some
                { pay with
                  status := "failed",
                  failureReason := p.message } := by
          simp only [updatePaymentDoc]
          rw [find_map_of_pred_invariant _ _ _ (by
            intro q
            by_cases hq : q.id = pay.id
            · simp [hq]
            · simp [hq])]
          rw [hfind]
          simp
        have hstep2 : (paymentsWebhook db p t2).2.1
            = { db with
                payments := updatePaymentDoc db.payments pay.id (fun q =>
                  { q with status := "failed", failureReason := p.message }) } := by
          simp [paymentsWebhook, hp, href, hfind, hs]
        rw [hstep1, hstep2]
        simp only [paymentsWebhook, hp]
        rw [if_neg href, hfind2]
        rw [Bool.not_eq_true] at hs
        simp [hs]
        exact updatePaymentDoc_updatePaymentDoc db.payments pay.id
          (fun q => { q with status := "failed", failureReason := p.message })
          (fun q => { q with status := "failed", failureReason := p.message })
          (fun q => rfl)
